import Mathlib

/-!
Verification of the connectivity and scheduling core of the Unraid Homey app:
the SSL-mode discovery / connection resolver, the GraphQL query executor with
redirect following and error classification (src/lib/api/client.ts,
src/lib/schemas/errors.ts), and the polling scheduler with exponential
backoff (src/lib/utils/poll-manager.ts).

The TypeScript code is embedded shallowly: each function below is a direct
translation of the corresponding source function.  Network I/O is modelled by
oracles (`ProbeOracle`, `RequestOracle`) supplying the outcome of each probe
or request, and the module-level discovery cache is threaded explicitly.
Asynchronous callbacks in the poll manager are modelled by passing the
success/failure outcome of the awaited callback as a boolean argument, and
timer activity is recorded in an explicit event trace.

JavaScript strings are modelled as Lean `String`s, but all string operations
are (re)implemented over the underlying character list so that every
definition reduces inside the kernel (`decide`/`rfl`).
-/

namespace Unraid

/-- Decidable equality for `Except`, used to evaluate concrete runs. -/
instance {ε α : Type} [DecidableEq ε] [DecidableEq α] : DecidableEq (Except ε α) :=
  fun x y =>
    match x, y with
    | Except.ok a, Except.ok b =>
      if h : a = b then isTrue (by rw [h]) else isFalse (by simp [h])
    | Except.ok _, Except.error _ => isFalse (by simp)
    | Except.error _, Except.ok _ => isFalse (by simp)
    | Except.error e, Except.error f =>
      if h : e = f then isTrue (by rw [h]) else isFalse (by simp [h])

/-- JS `String.prototype.includes`: substring containment over char lists. -/
def listContainsSub (hay pat : List Char) : Bool :=
  match hay with
  | [] => pat.isEmpty
  | _ :: t => pat.isPrefixOf hay || listContainsSub t pat

/-- JS `s.includes(pat)` (case sensitive). -/
def strContains (s pat : String) : Bool :=
  listContainsSub s.data pat.data

/-- JS `s.toLowerCase()` (ASCII-adequate model). -/
def strLower (s : String) : String :=
  ⟨s.data.map Char.toLower⟩

/-- JS `s.trim()`. -/
def jsTrim (s : String) : String :=
  ⟨((s.data.dropWhile Char.isWhitespace).reverse.dropWhile Char.isWhitespace).reverse⟩

/-- JS `s.endsWith(suffix)`. -/
def endsWithStr (s suf : String) : Bool :=
  suf.data.isSuffixOf s.data

/-- JS `s.startsWith(pre)`. -/
def startsWithStr (s pre : String) : Bool :=
  pre.data.isPrefixOf s.data

/-- Drop the first `n` characters of a string. -/
def dropStr (s : String) (n : Nat) : String :=
  ⟨s.data.drop n⟩

/-- Decimal value of a digit list, as computed by JS `parseInt(str, 10)`. -/
def digitsToNat (l : List Char) : Nat :=
  l.foldl (fun n c => n * 10 + (c.toNat - 48)) 0

/-!
Poll manager (src/lib/utils/poll-manager.ts).

A single registered job is modelled; jobs in the source live in `Map`s keyed
by id and never interact, so the per-id state transition functions below are
the whole behaviour.  `Date` timestamps are modelled by a `Nat` instant
passed to `executeCallback`.  Timer handles (`state.interval`) are modelled
as `Option Nat` carrying the armed interval, and every call into Homey's
timer API or into the job's work callback is recorded as a `PollEvent`.
-/

/-- PollConfig with optional fields, as accepted by `register` (source lines 6-17). -/
structure PollConfigInput where
  minInterval : Option Nat
  maxInterval : Option Nat
  baseInterval : Nat
  maxRetries : Option Nat
  backoffMultiplier : Option Nat
deriving DecidableEq, Repr

/-- `Required<PollConfig>`, after `register` fills defaults (source lines 77-83). -/
structure PollConfig where
  minInterval : Nat
  maxInterval : Nat
  baseInterval : Nat
  maxRetries : Nat
  backoffMultiplier : Nat
deriving DecidableEq, Repr

/-- Default filling performed by `register` (source lines 77-83). -/
def fillConfig (c : PollConfigInput) : PollConfig :=
  { minInterval := c.minInterval.getD 1000
    maxInterval := c.maxInterval.getD 30000
    baseInterval := c.baseInterval
    maxRetries := c.maxRetries.getD 5
    backoffMultiplier := c.backoffMultiplier.getD 2 }

/-- PollState (source lines 22-29); `interval` is the live timer handle. -/
structure PollState where
  interval : Option Nat
  currentInterval : Nat
  consecutiveErrors : Nat
  isRunning : Bool
  lastSuccess : Option Nat
  lastError : Option Nat
deriving DecidableEq, Repr

/-- Observable effects of the scheduler: work-callback invocations and timer API calls. -/
inductive PollEvent
  | invokeWork
  | armTimer (ms : Nat)
  | clearTimer
deriving DecidableEq, Repr

/-- `PollManager.stop` for an existing job (source lines 135-146). -/
def stopJob (s : PollState) : PollState × List PollEvent :=
  let cleared : PollState × List PollEvent :=
    match s.interval with
    | some _ => ({ s with interval := none }, [PollEvent.clearTimer])
    | none => (s, [])
  ({ cleared.1 with isRunning := false }, cleared.2)

/-- `PollManager.scheduleNext` (source lines 232-250): clear-before-rearm. -/
def scheduleNext (s : PollState) : PollState × List PollEvent :=
  if s.isRunning then
    let clearEvs : List PollEvent :=
      match s.interval with
      | some _ => [PollEvent.clearTimer]
      | none => []
    ({ s with interval := some s.currentInterval },
      clearEvs ++ [PollEvent.armTimer s.currentInterval])
  else (s, [])

/-- `PollManager.executeCallback` (source lines 186-227). `ok` is the outcome of
`await callback()`, `now` the `Date` recorded in the bookkeeping. -/
def executeCallback (cfg : PollConfig) (ok : Bool) (now : Nat) (s : PollState) :
    PollState × List PollEvent :=
  if ok then
    let s1 := { s with consecutiveErrors := 0, currentInterval := cfg.baseInterval,
                       lastSuccess := some now }
    let next := if s1.isRunning then scheduleNext s1 else (s1, [])
    (next.1, PollEvent.invokeWork :: next.2)
  else
    let errs := s.consecutiveErrors + 1
    let backoffInterval := Nat.min (cfg.baseInterval * cfg.backoffMultiplier ^ errs) cfg.maxInterval
    let s1 := { s with consecutiveErrors := errs, lastError := some now,
                       currentInterval := Nat.max backoffInterval cfg.minInterval }
    if errs ≥ cfg.maxRetries then
      let stopped := stopJob s1
      (stopped.1, PollEvent.invokeWork :: stopped.2)
    else
      let next := if s1.isRunning then scheduleNext s1 else (s1, [])
      (next.1, PollEvent.invokeWork :: next.2)

/-- Fresh job state created by `register` (source lines 87-94); `register` also
stops any previous job with the same id, so the resulting map entry is exactly
this state. -/
def registerState (cfg : PollConfig) : PollState :=
  { interval := none, currentInterval := cfg.baseInterval, consecutiveErrors := 0,
    isRunning := false, lastSuccess := none, lastError := none }

/-- `PollManager.start` for a registered job (source lines 102-130): no-op when
already running; otherwise reset, run the callback once, then arm the timer. -/
def startJob (cfg : PollConfig) (ok : Bool) (now : Nat) (s : PollState) :
    PollState × List PollEvent :=
  if s.isRunning then (s, [])
  else
    let s1 := { s with isRunning := true, currentInterval := cfg.baseInterval,
                       consecutiveErrors := 0 }
    let ran := executeCallback cfg ok now s1
    let next := scheduleNext ran.1
    (next.1, ran.2 ++ next.2)

/-- A scheduled tick can only fire while the job holds a live timer handle. -/
def canTick (s : PollState) : Bool :=
  s.interval.isSome

/-- Work-callback invocation recognizer for event traces. -/
def isInvokeWork : PollEvent → Bool
  | PollEvent.invokeWork => true
  | _ => false

/-- Number of work-callback invocations in a trace. -/
def countInvocations (evs : List PollEvent) : Nat :=
  evs.countP isInvokeWork

/-- State after `n` consecutive failing executions of a freshly registered job. -/
def afterFailures (cfg : PollConfig) : Nat → PollState
  | 0 => registerState cfg
  | n + 1 => (executeCallback cfg false 0 (afterFailures cfg n)).1

/-- Full lifecycle of a job that is started and then always fails: the `start`
call (which itself runs the callback once) followed by four timer ticks. -/
def alwaysFailRun (cfg : PollConfig) : PollState × List PollEvent :=
  let r1 := startJob cfg false 0 (registerState cfg)
  let r2 := executeCallback cfg false 1 r1.1
  let r3 := executeCallback cfg false 2 r2.1
  let r4 := executeCallback cfg false 3 r3.1
  let r5 := executeCallback cfg false 4 r4.1
  (r5.1, r1.2 ++ r2.2 ++ r3.2 ++ r4.2 ++ r5.2)

/-- Interval-bounds invariant of §3 of the spec for a job state. -/
def intervalInvariant (cfg : PollConfig) (s : PollState) : Prop :=
  cfg.minInterval ≤ s.currentInterval ∧ s.currentInterval ≤ cfg.maxInterval

/-!
Error taxonomy (src/lib/schemas/errors.ts) and the API client
(src/lib/api/client.ts).
-/

/-- ErrorCodeSchema enum (errors.ts lines 55-65). -/
inductive ErrorCode
  | CONNECTION_ERROR
  | AUTHENTICATION_ERROR
  | TIMEOUT_ERROR
  | VALIDATION_ERROR
  | RESOURCE_NOT_FOUND
  | OPERATION_FAILED
  | RATE_LIMITED
  | SERVER_ERROR
  | UNKNOWN_ERROR
deriving DecidableEq, Repr

/-- UnraidApiError (errors.ts lines 127-153); the opaque `details` map carries
only diagnostics and is omitted. -/
structure UnraidApiError where
  code : ErrorCode
  message : String
  retryable : Bool
deriving DecidableEq, Repr

/-- `createHttpError` (client.ts lines 88-108): the fixed non-2xx status table. -/
def createHttpError (status : Nat) (statusText : String) : UnraidApiError :=
  let mapped : ErrorCode × Bool :=
    if status = 401 then (ErrorCode.AUTHENTICATION_ERROR, false)
    else if status = 403 then (ErrorCode.AUTHENTICATION_ERROR, false)
    else if status = 404 then (ErrorCode.RESOURCE_NOT_FOUND, false)
    else if status = 429 then (ErrorCode.RATE_LIMITED, true)
    else if status = 500 then (ErrorCode.SERVER_ERROR, true)
    else if status = 502 then (ErrorCode.SERVER_ERROR, true)
    else if status = 503 then (ErrorCode.SERVER_ERROR, true)
    else if status = 504 then (ErrorCode.TIMEOUT_ERROR, true)
    else (ErrorCode.UNKNOWN_ERROR, false)
  { code := mapped.1
    message := "HTTP " ++ toString status ++ ": " ++ statusText
    retryable := mapped.2 }

/-- One GraphQL protocol-level error: its message and the machine-readable
`extensions.code` when present as a string (client.ts line 114). -/
structure GraphQLErrorInfo where
  message : String
  extCode : Option String
deriving DecidableEq, Repr

/-- `mapGraphQLErrorCode` (client.ts lines 113-135). -/
def mapGraphQLErrorCode (e : GraphQLErrorInfo) : ErrorCode :=
  let codeMapped : Option ErrorCode :=
    match e.extCode with
    | some c =>
      if c = "" then none
      else if c = "UNAUTHENTICATED" then some ErrorCode.AUTHENTICATION_ERROR
      else if c = "FORBIDDEN" then some ErrorCode.AUTHENTICATION_ERROR
      else if c = "NOT_FOUND" then some ErrorCode.RESOURCE_NOT_FOUND
      else if c = "INTERNAL_SERVER_ERROR" then some ErrorCode.SERVER_ERROR
      else if c = "BAD_USER_INPUT" then some ErrorCode.VALIDATION_ERROR
      else none
    | none => none
  match codeMapped with
  | some c => c
  | none =>
    let message := strLower e.message
    if strContains message "not found" then ErrorCode.RESOURCE_NOT_FOUND
    else if strContains message "unauthorized" || strContains message "authentication" then
      ErrorCode.AUTHENTICATION_ERROR
    else if strContains message "timeout" then ErrorCode.TIMEOUT_ERROR
    else ErrorCode.OPERATION_FAILED

/-- Parsed URL components (client.ts line 140). -/
structure ParsedUrl where
  hostname : String
  port : Nat
  protocol : String
  path : String
deriving DecidableEq, Repr

/-- `parseUrl` (client.ts lines 140-153): the regex
`^(https?)://([^:/]+)(?::(\d+))?(/.*)?$` rendered as a character scanner. -/
def parseUrl (urlString : String) : Option ParsedUrl :=
  let pr : String × String :=
    if startsWithStr urlString "https://" then ("https", dropStr urlString 8)
    else if startsWithStr urlString "http://" then ("http", dropStr urlString 7)
    else ("", urlString)
  let protocol := pr.1
  let rest := pr.2
  if protocol = "" then none
  else
    let hostChars := rest.data.takeWhile (fun c => c != ':' && c != '/')
    let afterHost := rest.data.drop hostChars.length
    if hostChars = [] then none
    else
      let defaultPort : Nat := if protocol = "https" then 443 else 80
      match afterHost with
      | [] => some ⟨⟨hostChars⟩, defaultPort, protocol, "/"⟩
      | c :: restChars =>
        if c = '/' then some ⟨⟨hostChars⟩, defaultPort, protocol, ⟨afterHost⟩⟩
        else if c = ':' then
          let digits := restChars.takeWhile Char.isDigit
          let afterPort := restChars.drop digits.length
          if digits = [] then none
          else
            let port := digitsToNat digits
            match afterPort with
            | [] => some ⟨⟨hostChars⟩, port, protocol, "/"⟩
            | c2 :: _ =>
              if c2 = '/' then some ⟨⟨hostChars⟩, port, protocol, ⟨afterPort⟩⟩
              else none
        else none

/-- `isSslError` (client.ts lines 158-168). -/
def isSslError (msg : String) : Bool :=
  let m := strLower msg
  strContains m "ssl" || strContains m "certificate" || strContains m "cert" ||
    strContains m "unable to verify" || strContains m "self signed" ||
    strContains m "self-signed" || strContains m "depth zero" ||
    strContains m "unable to get local issuer"

/-- SslMode (client.ts line 18). -/
inductive SslMode
  | no
  | yes
  | strict
deriving DecidableEq, Repr

/-- SslDiscoveryResult (client.ts lines 23-34). -/
structure SslDiscoveryResult where
  url : String
  sslMode : SslMode
  verifySsl : Bool
  useHttps : Bool
  port : Nat
deriving DecidableEq, Repr

/-- SslDiscoveryOptions (client.ts lines 39-46). -/
structure SslDiscoveryOptions where
  httpPort : Option Nat
  httpsPort : Option Nat
  timeout : Option Nat
deriving DecidableEq, Repr

/-- The second parameter of `discoverSslMode`: either the legacy bare timeout
number or an options object (client.ts lines 274-278). -/
inductive DiscoveryOptionsArg
  | num (t : Nat)
  | opts (o : SslDiscoveryOptions)
deriving DecidableEq, Repr

/-- Outcome of `probeHttp` (client.ts lines 174-212): never rejects; a socket
error or timeout resolves with status 0 and an error message. -/
structure HttpProbeResult where
  status : Nat
  location : Option String
  error : Option String
deriving DecidableEq, Repr

/-- Outcome of `probeHttps` (client.ts lines 218-255). -/
structure HttpsProbeResult where
  status : Nat
  error : Option String
deriving DecidableEq, Repr

/-- Network oracle for discovery probes, indexed by the probed port (and, for
TLS, by `rejectUnauthorized`). -/
structure ProbeOracle where
  plain : Nat → HttpProbeResult
  tls : Nat → Bool → HttpsProbeResult

/-- Record of the probe requests a discovery run put on the network. -/
inductive ProbeEvent
  | plain (port : Nat)
  | tls (port : Nat) (verify : Bool)
deriving DecidableEq, Repr

/-- The module-level `sslDiscoveryCache` `Map` (client.ts line 83), as an
association list; `cacheGet` returns the first binding of a key. -/
def DiscoveryCache : Type := List (String × SslDiscoveryResult)

/-- `Map.get` on the discovery cache. -/
def cacheGet : DiscoveryCache → String → Option SslDiscoveryResult
  | [], _ => none
  | (k, v) :: t, key => if k = key then some v else cacheGet t key

/-- `Map.set` on the discovery cache (replaces any existing binding). -/
def cacheSet (c : DiscoveryCache) (key : String) (v : SslDiscoveryResult) : DiscoveryCache :=
  (key, v) :: (List.filter (fun p => p.1 != key) c)

/-- Result of one `discoverSslMode` call: the value returned, the cache after
the call, and the probe requests that hit the network during the call. -/
structure DiscoveryOutcome where
  result : SslDiscoveryResult
  cache : DiscoveryCache
  probes : List ProbeEvent

/-- Redirect status check `[301, 302, 307, 308].includes(status)` (client.ts line 313). -/
def isRedirectStatus (status : Nat) : Bool :=
  status == 301 || status == 302 || status == 307 || status == 308

/-- `discoverSslMode` (client.ts lines 274-408), with the cache and the probe
network passed explicitly.  Note the two redirect branches store their result
under the bare `cleanHost` key while every lookup uses the
`host:httpPort:httpsPort` key. -/
def discoverSslMode (host : String) (options : DiscoveryOptionsArg)
    (cache : DiscoveryCache) (net : ProbeOracle) : DiscoveryOutcome :=
  let opts : SslDiscoveryOptions :=
    match options with
    | DiscoveryOptionsArg.num t => { httpPort := none, httpsPort := none, timeout := some t }
    | DiscoveryOptionsArg.opts o => o
  let httpPort := opts.httpPort.getD 80
  let httpsPort := opts.httpsPort.getD 443
  let cleanHost := jsTrim host
  let cacheKey := cleanHost ++ ":" ++ toString httpPort ++ ":" ++ toString httpsPort
  match cacheGet cache cacheKey with
  | some cached => ⟨cached, cache, []⟩
  | none =>
    if cleanHost = "myunraid.net" || endsWithStr cleanHost ".myunraid.net" then
      let portSuffix := if httpsPort ≠ 443 then ":" ++ toString httpsPort else ""
      let result : SslDiscoveryResult :=
        ⟨"https://" ++ cleanHost ++ portSuffix ++ "/graphql", SslMode.strict, true, true, httpsPort⟩
      ⟨result, cacheSet cache cacheKey result, []⟩
    else
      let httpProbe := net.plain httpPort
      let probes1 := [ProbeEvent.plain httpPort]
      let redirectBranch : Option DiscoveryOutcome :=
        match httpProbe.location with
        | none => none
        | some loc =>
          if httpProbe.status ≠ 0 ∧ isRedirectStatus httpProbe.status = true ∧ loc ≠ "" then
            match parseUrl loc with
            | none => none
            | some parsed =>
              if parsed.hostname ≠ "" then
                if parsed.hostname = "myunraid.net" ||
                    endsWithStr parsed.hostname ".myunraid.net" then
                  let baseUrl := parsed.protocol ++ "://" ++ parsed.hostname ++
                    (if parsed.port ≠ 443 then ":" ++ toString parsed.port else "")
                  let result : SslDiscoveryResult :=
                    ⟨baseUrl ++ "/graphql", SslMode.strict, true, true, parsed.port⟩
                  some ⟨result, cacheSet cache cleanHost result, probes1⟩
                else if parsed.protocol = "https" then
                  let baseUrl := parsed.protocol ++ "://" ++ parsed.hostname ++
                    (if parsed.port ≠ 443 then ":" ++ toString parsed.port else "")
                  let result : SslDiscoveryResult :=
                    ⟨baseUrl ++ "/graphql", SslMode.yes, false, true, parsed.port⟩
                  some ⟨result, cacheSet cache cleanHost result, probes1⟩
                else none
              else none
          else none
      match redirectBranch with
      | some out => out
      | none =>
        if httpProbe.status ≠ 0 ∧ 200 ≤ httpProbe.status then
          let portSuffix := if httpPort ≠ 80 then ":" ++ toString httpPort else ""
          let result : SslDiscoveryResult :=
            ⟨"http://" ++ cleanHost ++ portSuffix ++ "/graphql", SslMode.no, false, false, httpPort⟩
          ⟨result, cacheSet cache cacheKey result, probes1⟩
        else
          let httpsStrictProbe := net.tls httpsPort true
          let probes2 := probes1 ++ [ProbeEvent.tls httpsPort true]
          if httpsStrictProbe.status ≠ 0 ∧ 200 ≤ httpsStrictProbe.status then
            let portSuffix := if httpsPort ≠ 443 then ":" ++ toString httpsPort else ""
            let result : SslDiscoveryResult :=
              ⟨"https://" ++ cleanHost ++ portSuffix ++ "/graphql",
                SslMode.strict, true, true, httpsPort⟩
            ⟨result, cacheSet cache cacheKey result, probes2⟩
          else
            let certErr : Bool :=
              match httpsStrictProbe.error with
              | some msg => (msg != "") && isSslError msg
              | none => false
            let portSuffix := if httpsPort ≠ 443 then ":" ++ toString httpsPort else ""
            let fallback : SslDiscoveryResult :=
              ⟨"https://" ++ cleanHost ++ portSuffix ++ "/graphql",
                SslMode.yes, false, true, httpsPort⟩
            if certErr then
              let selfProbe := net.tls httpsPort false
              let probes3 := probes2 ++ [ProbeEvent.tls httpsPort false]
              if selfProbe.status ≠ 0 ∧ 200 ≤ selfProbe.status then
                let result : SslDiscoveryResult :=
                  ⟨"https://" ++ cleanHost ++ portSuffix ++ "/graphql",
                    SslMode.yes, false, true, httpsPort⟩
                ⟨result, cacheSet cache cacheKey result, probes3⟩
              else
                ⟨fallback, cacheSet cache cacheKey fallback, probes3⟩
            else
              ⟨fallback, cacheSet cache cacheKey fallback, probes2⟩

/-!
Query executor (`executeQuery`, client.ts lines 533-688).  Request bodies are
modelled by the three-way outcome the code distinguishes after receiving a
2xx response: `JSON.parse` throws, `GraphQLResponseSchema(schema).safeParse`
fails (bad envelope shape or payload shape), or a parsed envelope with its
error list and nullable data.  `α` is the payload type declared by the
caller-supplied zod schema.
-/

/-- Parse/validation outcome of a response body. -/
inductive ResponseBody (α : Type)
  | notJson
  | invalidEnvelope
  | envelope (errors : List GraphQLErrorInfo) (data : Option α)

/-- Outcome of one `makeHttpRequest` network attempt: a wire response (with an
optional `Location` header) or a rejected promise carrying an `Error` message. -/
inductive RawRequestOutcome (α : Type)
  | response (status : Nat) (statusText : String) (location : Option String)
      (body : ResponseBody α)
  | netError (msg : String)

/-- Network oracle for `executeQuery`: the outcome of its `i`-th request. -/
structure RequestOracle (α : Type) where
  requests : Nat → RawRequestOutcome α

/-- Resolved value of `makeHttpRequest` (client.ts lines 433-521). -/
structure HttpResponseModel (α : Type) where
  status : Nat
  statusText : String
  body : ResponseBody α
  redirectUrl : Option String

/-- `makeHttpRequest` (client.ts lines 433-521): a redirect status with a
non-empty `Location` header resolves early with `redirectUrl` set and an empty
(unparseable) body; otherwise the body is read. -/
def makeHttpRequest {α : Type} (out : RawRequestOutcome α) :
    Except String (HttpResponseModel α) :=
  match out with
  | RawRequestOutcome.netError msg => Except.error msg
  | RawRequestOutcome.response status statusText location body =>
    match location with
    | some loc =>
      if isRedirectStatus status = true ∧ loc ≠ "" then
        Except.ok ⟨status, statusText, ResponseBody.notJson, some loc⟩
      else Except.ok ⟨status, statusText, body, none⟩
    | none => Except.ok ⟨status, statusText, body, none⟩

/-- The redirect-following loop of `executeQuery` (client.ts lines 583-593):
`remaining` is `MAX_REDIRECTS - redirectCount`, starting at 5; each iteration
re-issues the request.  (The loop also keeps a `resolvedUrl` variable updated
from the redirect target; that variable is never read afterwards.) -/
def followRedirects {α : Type} (oracle : RequestOracle α) (idx : Nat)
    (resp : HttpResponseModel α) : Nat → Except String (HttpResponseModel α)
  | 0 => Except.ok resp
  | r + 1 =>
    match resp.redirectUrl with
    | none => Except.ok resp
    | some _ =>
      match makeHttpRequest (oracle.requests idx) with
      | Except.error m => Except.error m
      | Except.ok resp2 => followRedirects oracle (idx + 1) resp2 r

/-- `classifyJsError`: the catch-block classification of an `Error` reaching the
end of `executeQuery` (client.ts lines 650-680). -/
def classifyJsError (configHost : String) (msg : String) : UnraidApiError :=
  if strContains msg "timed out" then ⟨ErrorCode.TIMEOUT_ERROR, msg, true⟩
  else if strContains msg "ECONNREFUSED" then
    ⟨ErrorCode.CONNECTION_ERROR,
      "Connection refused - is the server running at " ++ configHost ++ "?", true⟩
  else if strContains msg "ENOTFOUND" || strContains msg "EAI_AGAIN" then
    ⟨ErrorCode.CONNECTION_ERROR, "Could not resolve hostname: " ++ configHost, true⟩
  else ⟨ErrorCode.CONNECTION_ERROR, msg, true⟩

/-- A value reaching the catch block of `executeQuery`: an already classified
`UnraidApiError`, a plain JS `Error`, or any other thrown value. -/
inductive ThrownValue
  | api (e : UnraidApiError)
  | jsError (msg : String)
  | other

/-- The full catch block of `executeQuery` (client.ts lines 645-687). -/
def catchClassify (configHost : String) : ThrownValue → UnraidApiError
  | ThrownValue.api e => e
  | ThrownValue.jsError msg => classifyJsError configHost msg
  | ThrownValue.other => ⟨ErrorCode.UNKNOWN_ERROR, "An unexpected error occurred", false⟩

/-- UnraidClientConfig (client.ts lines 51-72), restricted to the fields
`executeQuery` and discovery consume. -/
structure UnraidClientConfig where
  host : String
  apiKey : String
  timeout : Option Nat
  sslMode : Option SslMode
  resolvedUrl : Option String
  httpPort : Option Nat
  httpsPort : Option Nat
deriving Repr

/-- URL resolution performed by `executeQuery` (client.ts lines 553-567),
together with the cache and probe activity of the discovery it may run. -/
structure Resolution where
  url : String
  allowSelfSigned : Bool
  cache : DiscoveryCache
  probes : List ProbeEvent

/-- Result of one `executeQuery` call: the returned payload or the single
thrown `UnraidApiError`, plus the discovery cache afterwards and the discovery
probes that hit the network. -/
structure ExecOutcome (α : Type) where
  result : Except UnraidApiError α
  cache : DiscoveryCache
  discoveryProbes : List ProbeEvent

/-- `executeQuery` (client.ts lines 533-688). -/
def executeQuery {α : Type} (config : UnraidClientConfig) (oracle : RequestOracle α)
    (net : ProbeOracle) (cache : DiscoveryCache) : ExecOutcome α :=
  let timeout := config.timeout.getD 10000
  if jsTrim config.host = "" then
    ⟨Except.error ⟨ErrorCode.VALIDATION_ERROR, "Host is required but was empty", false⟩,
      cache, []⟩
  else
    let host := jsTrim config.host
    let resolved : Resolution :=
      match config.resolvedUrl with
      | some u => ⟨u, decide (config.sslMode ≠ some SslMode.strict), cache, []⟩
      | none =>
        let d := discoverSslMode host (DiscoveryOptionsArg.num timeout) cache net
        ⟨d.result.url, !d.result.verifySsl, d.cache, d.probes⟩
    let finish : Except UnraidApiError α → ExecOutcome α :=
      fun r => ⟨r, resolved.cache, resolved.probes⟩
    match parseUrl resolved.url with
    | none =>
      finish (Except.error ⟨ErrorCode.VALIDATION_ERROR,
        "Invalid URL constructed: " ++ resolved.url ++ ". Host: " ++ host, false⟩)
    | some parsedUrl =>
      if parsedUrl.hostname = "" then
        finish (Except.error ⟨ErrorCode.VALIDATION_ERROR,
          "Invalid URL constructed: " ++ resolved.url ++ ". Host: " ++ host, false⟩)
      else
        let attempt : Except String (HttpResponseModel α) :=
          match makeHttpRequest (oracle.requests 0) with
          | Except.error m => Except.error m
          | Except.ok r0 => followRedirects oracle 1 r0 5
        match attempt with
        | Except.error msg =>
          finish (Except.error (catchClassify config.host (ThrownValue.jsError msg)))
        | Except.ok response =>
          if response.status < 200 ∨ 300 ≤ response.status then
            finish (Except.error (createHttpError response.status response.statusText))
          else
            match response.body with
            | ResponseBody.notJson =>
              finish (Except.error ⟨ErrorCode.VALIDATION_ERROR,
                "Invalid JSON response from server", false⟩)
            | ResponseBody.invalidEnvelope =>
              finish (Except.error ⟨ErrorCode.VALIDATION_ERROR,
                "Invalid response format from server", false⟩)
            | ResponseBody.envelope errors dat =>
              match errors with
              | firstError :: _ =>
                finish (Except.error
                  ⟨mapGraphQLErrorCode firstError, firstError.message, false⟩)
              | [] =>
                match dat with
                | none =>
                  finish (Except.error ⟨ErrorCode.SERVER_ERROR,
                    "Server returned null data", true⟩)
                | some d => finish (Except.ok d)

/-!
Concrete fixtures used to evaluate the embedding on the scenarios of the
spec: probe networks, request oracles and client configurations.
-/

/-- A server that answers the plaintext probe with an HTTP 302 redirect to
HTTPS on the same host, and refuses TLS probes. -/
def redirectNet : ProbeOracle :=
  ⟨fun _ => ⟨302, some "https://192.168.1.100/graphql", none⟩, fun _ _ => ⟨0, some "boom"⟩⟩

/-- A server that answers every probe with a plain 200. -/
def plainNet : ProbeOracle :=
  ⟨fun _ => ⟨200, none, none⟩, fun _ _ => ⟨200, none⟩⟩

/-- Empty discovery options object (`{}`). -/
def emptyOpts : SslDiscoveryOptions := ⟨none, none, none⟩

/-- First discovery call against the redirecting server. -/
def redirectDiscovery1 : DiscoveryOutcome :=
  discoverSslMode "192.168.1.100" (DiscoveryOptionsArg.opts emptyOpts) [] redirectNet

/-- Second discovery call with identical arguments, on the cache produced by
the first call. -/
def redirectDiscovery2 : DiscoveryOutcome :=
  discoverSslMode "192.168.1.100" (DiscoveryOptionsArg.opts emptyOpts)
    redirectDiscovery1.cache redirectNet

/-- Client configuration with no pre-resolved URL and custom discovery ports. -/
def customPortConfig : UnraidClientConfig :=
  ⟨"192.168.1.100", "key", some 5000, none, none, some 8080, some 8443⟩

/-- Client configuration with a pre-resolved URL (as produced by pairing). -/
def resolvedConfig : UnraidClientConfig :=
  ⟨"192.168.1.100", "key", none, some SslMode.strict,
    some "https://192.168.1.100/graphql", none, none⟩

/-- Request oracle answering every request identically. -/
def constOracle {α : Type} (out : RawRequestOutcome α) : RequestOracle α :=
  ⟨fun _ => out⟩

/-- A 302 redirect wire response pointing at the same GraphQL endpoint. -/
def redirectResponse {α : Type} : RawRequestOutcome α :=
  RawRequestOutcome.response 302 "Found" (some "https://192.168.1.100/graphql")
    ResponseBody.notJson

/-- A clean 200 response with a valid envelope carrying payload `x`. -/
def okResponse {α : Type} (x : α) : RawRequestOutcome α :=
  RawRequestOutcome.response 200 "OK" none (ResponseBody.envelope [] (some x))

/-- Oracle whose first five responses are redirects and whose sixth carries a
valid payload: a redirect chain of exactly 5 followed hops. -/
def fiveHopOracle {α : Type} (x : α) : RequestOracle α :=
  ⟨fun i => if i < 5 then redirectResponse else okResponse x⟩

/-- The backoff configuration of the spec scenario: base 1000ms, max 30000ms,
multiplier 2, with the minimum interval and retry ceiling left free. -/
def backoffCfg (minI maxRetries : Nat) : PollConfig :=
  ⟨minI, 30000, 1000, maxRetries, 2⟩

/-- A running job state holding a live timer handle. -/
def runningState : PollState :=
  ⟨some 1000, 1000, 0, true, none, none⟩

/-- Poll configuration whose base interval 500 lies below the default minimum
interval 1000. -/
def lowBaseConfig : PollConfig :=
  fillConfig ⟨none, none, 500, none, none⟩

/-- First discovery call against the plain-HTTP server. -/
def plainDiscovery1 : DiscoveryOutcome :=
  discoverSslMode "192.168.1.100" (DiscoveryOptionsArg.opts emptyOpts) [] plainNet

/-- Second identical discovery call against the plain-HTTP server. -/
def plainDiscovery2 : DiscoveryOutcome :=
  discoverSslMode "192.168.1.100" (DiscoveryOptionsArg.opts emptyOpts)
    plainDiscovery1.cache plainNet

/-- Oracle answering with a fixed status and status text, no redirect, and a
well-formed envelope. -/
def statusOracle (status : Nat) (statusText : String) : RequestOracle Nat :=
  constOracle (RawRequestOutcome.response status statusText none
    (ResponseBody.envelope [] (some 0)))

/-- Oracle answering 200 with an envelope whose first protocol-level error has
message "timeout" and no machine-readable code. -/
def timeoutMsgOracle : RequestOracle Nat :=
  constOracle (RawRequestOutcome.response 200 "OK" none
    (ResponseBody.envelope [⟨"timeout", none⟩] (some 0)))

/-- Oracle answering 200 with an envelope carrying the given error list head. -/
def gqlErrorOracle (e : GraphQLErrorInfo) (rest : List GraphQLErrorInfo) (d : Option Nat) :
    RequestOracle Nat :=
  constOracle (RawRequestOutcome.response 200 "OK" none (ResponseBody.envelope (e :: rest) d))

/-- Oracle whose request rejects with an `Error` carrying message `m`. -/
def netErrorOracle (m : String) : RequestOracle Nat :=
  constOracle (RawRequestOutcome.netError m)

/-!
Helper lemmas about the poll manager's transition functions.
-/

/-- Stopping a job clears the timer handle and the running flag, nothing else. -/
lemma stopJob_fst (s : PollState) :
    (stopJob s).1 = { s with interval := none, isRunning := false } := by
  obtain ⟨i, ci, e, r, ls, le⟩ := s
  cases i <;> rfl

/-- Rescheduling only replaces the timer handle. -/
lemma scheduleNext_fst (s : PollState) :
    (scheduleNext s).1 =
      if s.isRunning then { s with interval := some s.currentInterval } else s := by
  obtain ⟨i, ci, e, r, ls, le⟩ := s
  cases r <;> cases i <;> rfl

/-- A failing execution increments the error count by exactly one and sets the
interval to the clamped exponential backoff value, in every branch. -/
lemma executeCallback_false_fields (cfg : PollConfig) (now : Nat) (s : PollState) :
    ((executeCallback cfg false now s).1).consecutiveErrors = s.consecutiveErrors + 1 ∧
    ((executeCallback cfg false now s).1).currentInterval =
      Nat.max (Nat.min (cfg.baseInterval * cfg.backoffMultiplier ^ (s.consecutiveErrors + 1))
        cfg.maxInterval) cfg.minInterval := by
  obtain ⟨i, ci, e, r, ls, le⟩ := s
  by_cases hr : e + 1 ≥ cfg.maxRetries <;> cases r <;> cases i <;>
    simp [executeCallback, stopJob, scheduleNext, hr]

/-- A successful execution resets the error count to zero and the interval to
the base interval, in every branch. -/
lemma executeCallback_true_fields (cfg : PollConfig) (now : Nat) (s : PollState) :
    ((executeCallback cfg true now s).1).consecutiveErrors = 0 ∧
    ((executeCallback cfg true now s).1).currentInterval = cfg.baseInterval := by
  obtain ⟨i, ci, e, r, ls, le⟩ := s
  cases r <;> cases i <;> simp [executeCallback, scheduleNext]

/-- Starting an already running job changes nothing and performs no effects. -/
lemma startJob_running_eq (cfg : PollConfig) (ok : Bool) (now : Nat) (s : PollState)
    (h : s.isRunning = true) : startJob cfg ok now s = (s, []) := by
  simp [startJob, h]

/-- After `n` consecutive failing executions the error counter is `n`. -/
lemma afterFailures_consecutiveErrors (cfg : PollConfig) :
    ∀ n, (afterFailures cfg n).consecutiveErrors = n := by
  intro n
  induction n with
  | zero => rfl
  | succ k ih =>
    have h := (executeCallback_false_fields cfg 0 (afterFailures cfg k)).1
    simpa [afterFailures, ih] using h

/-- Closed form of the interval after `n ≥ 1` consecutive failures. -/
lemma afterFailures_currentInterval (cfg : PollConfig) (n : Nat) :
    (afterFailures cfg (n + 1)).currentInterval =
      Nat.max (Nat.min (cfg.baseInterval * cfg.backoffMultiplier ^ (n + 1))
        cfg.maxInterval) cfg.minInterval := by
  have h := (executeCallback_false_fields cfg 0 (afterFailures cfg n)).2
  simpa [afterFailures, afterFailures_consecutiveErrors cfg n] using h

/-- C2: with baseIntervalMs 1000, maxIntervalMs 30000 and multiplier 2 (the
minimum interval not binding), the interval sequence along consecutive
failures is 1000, 2000, 4000, 8000, 16000, 30000 and stays 30000 from the 5th
failure on; any successful execution resets the interval to 1000 and the
error counter to 0; and each failure sets the interval to
clamp(base * multiplier ^ consecutiveErrors, min, max). -/
theorem backoff_sequence (minI maxRetries : Nat) (hmin : minI ≤ 1000) :
    ((afterFailures (backoffCfg minI maxRetries) 0).currentInterval = 1000 ∧
     (afterFailures (backoffCfg minI maxRetries) 1).currentInterval = 2000 ∧
     (afterFailures (backoffCfg minI maxRetries) 2).currentInterval = 4000 ∧
     (afterFailures (backoffCfg minI maxRetries) 3).currentInterval = 8000 ∧
     (afterFailures (backoffCfg minI maxRetries) 4).currentInterval = 16000 ∧
     (afterFailures (backoffCfg minI maxRetries) 5).currentInterval = 30000 ∧
     (afterFailures (backoffCfg minI maxRetries) 6).currentInterval = 30000) ∧
    (∀ n, 5 ≤ n → (afterFailures (backoffCfg minI maxRetries) n).currentInterval = 30000) ∧
    (∀ now s, ((executeCallback (backoffCfg minI maxRetries) true now s).1).currentInterval = 1000 ∧
      ((executeCallback (backoffCfg minI maxRetries) true now s).1).consecutiveErrors = 0) ∧
    (∀ now s, ((executeCallback (backoffCfg minI maxRetries) false now s).1).currentInterval =
      Nat.max (Nat.min (1000 * 2 ^ (s.consecutiveErrors + 1)) 30000) minI) := by
  have hcap : ∀ n, 5 ≤ n →
      (afterFailures (backoffCfg minI maxRetries) n).currentInterval = 30000 := by
    intro n hn
    obtain ⟨k, rfl⟩ : ∃ k, n = k + 1 := ⟨n - 1, by omega⟩
    rw [afterFailures_currentInterval]
    have h32 : (32 : Nat) ≤ 2 ^ (k + 1) := by
      calc (32 : Nat) = 2 ^ 5 := by norm_num
        _ ≤ 2 ^ (k + 1) := Nat.pow_le_pow_right (by norm_num) (by omega)
    have hge : (30000 : Nat) ≤ 1000 * 2 ^ (k + 1) := by
      calc (30000 : Nat) ≤ 1000 * 32 := by norm_num
        _ ≤ 1000 * 2 ^ (k + 1) := Nat.mul_le_mul_left 1000 h32
    have hmin' : minI ≤ 30000 := hmin.trans (by norm_num)
    simp [backoffCfg, Nat.min_eq_right hge, Nat.max_eq_left hmin']
  refine ⟨⟨rfl, ?_, ?_, ?_, ?_, hcap 5 (by norm_num), hcap 6 (by norm_num)⟩, hcap, ?_, ?_⟩
  · rw [show (1 : Nat) = 0 + 1 from rfl, afterFailures_currentInterval]
    simp [backoffCfg]
    omega
  · rw [show (2 : Nat) = 1 + 1 from rfl, afterFailures_currentInterval]
    simp [backoffCfg]
    omega
  · rw [show (3 : Nat) = 2 + 1 from rfl, afterFailures_currentInterval]
    simp [backoffCfg]
    omega
  · rw [show (4 : Nat) = 3 + 1 from rfl, afterFailures_currentInterval]
    simp [backoffCfg]
    omega
  · intro now s
    have h := executeCallback_true_fields (backoffCfg minI maxRetries) now s
    exact ⟨h.2, h.1⟩
  · intro now s
    exact (executeCallback_false_fields (backoffCfg minI maxRetries) now s).2

/-- C2 witness: the backoff sequence evaluated with the default minimum
interval 1000 and retry ceiling 5. -/
theorem backoff_sequence_witness :
    (1000 : Nat) ≤ 1000 ∧
    (afterFailures (backoffCfg 1000 5) 3).currentInterval = 8000 ∧
    (afterFailures (backoffCfg 1000 5) 7).currentInterval = 30000 := by
  have h := backoff_sequence 1000 5 (le_refl 1000)
  exact ⟨le_refl 1000, h.1.2.2.2.1, h.2.1 7 (by norm_num)⟩

/-- Replacing the timer handle leaves the current interval unchanged. -/
@[simp] lemma update_interval_currentInterval (s : PollState) (v : Option Nat) :
    ({ s with interval := v } : PollState).currentInterval = s.currentInterval := by
  obtain ⟨i, ci, e, r, ls, le⟩ := s
  rfl

/-- Tearing down the timer leaves the current interval unchanged. -/
@[simp] lemma update_interval_isRunning_currentInterval (s : PollState) (v : Option Nat)
    (b : Bool) :
    ({ s with interval := v, isRunning := b } : PollState).currentInterval =
      s.currentInterval := by
  obtain ⟨i, ci, e, r, ls, le⟩ := s
  rfl

/-- C3: a job with maxRetries 5 whose work always fails is stopped by the
scheduler at its 5th consecutive failure: over the whole run (start plus four
timer ticks) the callback is invoked exactly 5 times, the final effect is the
timer teardown, the job ends not running with no timer handle, so no further
tick can fire; and, generically, a failing execution of a running job whose
error count reaches the ceiling ends with the timer cleared and nothing
re-armed. -/
theorem max_retries_stops_job (minI maxI base mult : Nat) :
    ((alwaysFailRun ⟨minI, maxI, base, 5, mult⟩).1.isRunning = false ∧
     (alwaysFailRun ⟨minI, maxI, base, 5, mult⟩).1.interval = none ∧
     canTick (alwaysFailRun ⟨minI, maxI, base, 5, mult⟩).1 = false ∧
     countInvocations (alwaysFailRun ⟨minI, maxI, base, 5, mult⟩).2 = 5 ∧
     (alwaysFailRun ⟨minI, maxI, base, 5, mult⟩).2.getLast? = some PollEvent.clearTimer) ∧
    (∀ now s, s.isRunning = true → s.interval.isSome = true → s.consecutiveErrors = 4 →
      ((executeCallback ⟨minI, maxI, base, 5, mult⟩ false now s).1.isRunning = false ∧
       (executeCallback ⟨minI, maxI, base, 5, mult⟩ false now s).1.interval = none ∧
       (executeCallback ⟨minI, maxI, base, 5, mult⟩ false now s).2
         = [PollEvent.invokeWork, PollEvent.clearTimer])) := by
  constructor
  · simp [alwaysFailRun, startJob, executeCallback, scheduleNext, stopJob, registerState,
      canTick, countInvocations, isInvokeWork]
  · intro now s h1 h2 h3
    obtain ⟨i, ci, e, r, ls, le⟩ := s
    cases i with
    | none => simp at h2
    | some v =>
      have hr : r = true := h1
      have he : e = 4 := h3
      subst hr he
      simp [executeCallback, stopJob]

/-- C3 witness: the always-failing run evaluated at the default configuration,
and the generic fifth-failure step evaluated at a concrete running state. -/
theorem max_retries_stops_job_witness :
    countInvocations (alwaysFailRun ⟨1000, 30000, 1000, 5, 2⟩).2 = 5 ∧
    (alwaysFailRun ⟨1000, 30000, 1000, 5, 2⟩).1.isRunning = false ∧
    (executeCallback ⟨1000, 30000, 1000, 5, 2⟩ false 9
        ⟨some 16000, 16000, 4, true, none, none⟩).2
      = [PollEvent.invokeWork, PollEvent.clearTimer] := by
  have h := max_retries_stops_job 1000 30000 1000 2
  exact ⟨h.1.2.2.2.1, h.1.1, (h.2 9 ⟨some 16000, 16000, 4, true, none, none⟩ rfl rfl rfl).2.2⟩

/-- C9 counterexample: a job registered with baseInterval 500 and the default
minimum interval 1000 violates the claimed invariant immediately after
register. -/
theorem register_interval_invariant_violated :
    lowBaseConfig.minInterval = 1000 ∧
    (registerState lowBaseConfig).currentInterval = 500 ∧
    ¬ intervalInvariant lowBaseConfig (registerState lowBaseConfig) := by
  refine ⟨rfl, rfl, fun h => absurd h.1 (by decide)⟩

/-- C9 (amended): provided the configuration satisfies
minInterval ≤ baseInterval ≤ maxInterval, the invariant
minInterval ≤ currentInterval ≤ maxInterval holds immediately after register
and is preserved by every execution (success or failure), by start and by
stop; consecutiveErrors is reset to 0 by any success and incremented by
exactly one by each failure. -/
theorem interval_invariant_preserved (cfg : PollConfig)
    (h1 : cfg.minInterval ≤ cfg.baseInterval) (h2 : cfg.baseInterval ≤ cfg.maxInterval) :
    intervalInvariant cfg (registerState cfg) ∧
    (∀ ok now s, intervalInvariant cfg ((executeCallback cfg ok now s).1)) ∧
    (∀ now s, ((executeCallback cfg true now s).1).consecutiveErrors = 0) ∧
    (∀ now s, ((executeCallback cfg false now s).1).consecutiveErrors
      = s.consecutiveErrors + 1) ∧
    (∀ ok now s, intervalInvariant cfg s → intervalInvariant cfg ((startJob cfg ok now s).1)) ∧
    (∀ s, intervalInvariant cfg s → intervalInvariant cfg ((stopJob s).1)) := by
  have hexec : ∀ ok now s, intervalInvariant cfg ((executeCallback cfg ok now s).1) := by
    intro ok now s
    cases ok with
    | true =>
      have h := (executeCallback_true_fields cfg now s).2
      exact ⟨h ▸ h1, h ▸ h2⟩
    | false =>
      have h := (executeCallback_false_fields cfg now s).2
      constructor
      · rw [h]
        exact Nat.le_max_right _ _
      · rw [h]
        exact Nat.max_le.mpr ⟨Nat.min_le_right _ _, h1.trans h2⟩
  refine ⟨⟨h1, h2⟩, hexec, ?_, ?_, ?_, ?_⟩
  · intro now s
    exact (executeCallback_true_fields cfg now s).1
  · intro now s
    exact (executeCallback_false_fields cfg now s).1
  · intro ok now s hs
    by_cases hr : s.isRunning = true
    · rw [startJob_running_eq cfg ok now s hr]
      exact hs
    · have hfalse : s.isRunning = false := by
        revert hr
        cases s.isRunning <;> simp
      have hrun := hexec ok now
        { s with isRunning := true, currentInterval := cfg.baseInterval, consecutiveErrors := 0 }
      simp only [startJob, hfalse, Bool.false_eq_true, if_false]
      rw [scheduleNext_fst]
      split
      · exact ⟨by simpa using hrun.1, by simpa using hrun.2⟩
      · exact hrun
  · intro s hs
    rw [stopJob_fst]
    exact ⟨by simpa using hs.1, by simpa using hs.2⟩

/-- C9 witness: the amended invariant evaluated on the default backoff
configuration and a concrete running state. -/
theorem interval_invariant_preserved_witness :
    (backoffCfg 1000 5).minInterval ≤ (backoffCfg 1000 5).baseInterval ∧
    (backoffCfg 1000 5).baseInterval ≤ (backoffCfg 1000 5).maxInterval ∧
    intervalInvariant (backoffCfg 1000 5) (registerState (backoffCfg 1000 5)) ∧
    intervalInvariant (backoffCfg 1000 5)
      ((executeCallback (backoffCfg 1000 5) false 0 runningState).1) := by
  have h := interval_invariant_preserved (backoffCfg 1000 5) (by decide) (by decide)
  exact ⟨by decide, by decide, h.1, h.2.1 false 0 runningState⟩

/-- C10: calling start on a job that is already running is a no-op: the state
(timer handle, interval, error count) is unchanged and no timer is armed and
no work callback is invoked. -/
theorem start_running_noop (cfg : PollConfig) (ok : Bool) (now : Nat) (s : PollState)
    (h : s.isRunning = true) : startJob cfg ok now s = (s, []) := by
  simp [startJob, h]

/-- C10 witness: start on a concrete running job. -/
theorem start_running_noop_witness :
    runningState.isRunning = true ∧
    startJob (backoffCfg 1000 5) true 0 runningState = (runningState, []) :=
  ⟨rfl, start_running_noop (backoffCfg 1000 5) true 0 runningState rfl⟩

/-- C1: evaluation at the failing input.  A host whose plaintext probe answers
with a 302 redirect to HTTPS on the same host resolves to self-signed mode and
stores the result under the bare host key, while every lookup uses the
host:httpPort:httpsPort key; a second call with identical arguments therefore
misses the cache and probes the network again.  For contrast, the plaintext-ok
branch stores under the composite key and the second call is served from the
cache with no probe. -/
theorem redirect_branch_second_call_reprobes :
    redirectDiscovery1.result.sslMode = SslMode.yes ∧
    redirectDiscovery1.result.url = "https://192.168.1.100/graphql" ∧
    redirectDiscovery1.probes = [ProbeEvent.plain 80] ∧
    cacheGet redirectDiscovery1.cache "192.168.1.100:80:443" = none ∧
    (cacheGet redirectDiscovery1.cache "192.168.1.100").isSome = true ∧
    redirectDiscovery2.probes = [ProbeEvent.plain 80] ∧
    redirectDiscovery2.probes ≠ [] ∧
    plainDiscovery2.probes = [] ∧
    plainDiscovery2.result = plainDiscovery1.result := by
  decide

/-- C4: after redirect handling, a non-2xx status makes executeQuery throw the
error of the fixed table: 401/403 Authentication non-retryable, 404 NotFound
non-retryable, 429 RateLimited retryable, 500/502/503 ServerFault retryable,
504 Timeout retryable, anything else Unknown non-retryable. -/
theorem http_status_classification (status : Nat) (statusText : String)
    (h : status < 200 ∨ 300 ≤ status) :
    (executeQuery resolvedConfig (statusOracle status statusText) plainNet []).result
      = Except.error (createHttpError status statusText) ∧
    ((status = 401 ∨ status = 403) →
      (createHttpError status statusText).code = ErrorCode.AUTHENTICATION_ERROR ∧
      (createHttpError status statusText).retryable = false) ∧
    (status = 404 →
      (createHttpError status statusText).code = ErrorCode.RESOURCE_NOT_FOUND ∧
      (createHttpError status statusText).retryable = false) ∧
    (status = 429 →
      (createHttpError status statusText).code = ErrorCode.RATE_LIMITED ∧
      (createHttpError status statusText).retryable = true) ∧
    ((status = 500 ∨ status = 502 ∨ status = 503) →
      (createHttpError status statusText).code = ErrorCode.SERVER_ERROR ∧
      (createHttpError status statusText).retryable = true) ∧
    (status = 504 →
      (createHttpError status statusText).code = ErrorCode.TIMEOUT_ERROR ∧
      (createHttpError status statusText).retryable = true) ∧
    (status ∉ ([401, 403, 404, 429, 500, 502, 503, 504] : List Nat) →
      (createHttpError status statusText).code = ErrorCode.UNKNOWN_ERROR ∧
      (createHttpError status statusText).retryable = false) := by
  have key : executeQuery resolvedConfig (statusOracle status statusText) plainNet []
      = if status < 200 ∨ 300 ≤ status
        then ⟨Except.error (createHttpError status statusText), [], []⟩
        else ⟨Except.ok 0, [], []⟩ := rfl
  refine ⟨?_, ?_, ?_, ?_, ?_, ?_, ?_⟩
  · rw [key, if_pos h]
  · rintro (rfl | rfl) <;> exact ⟨rfl, rfl⟩
  · rintro rfl
    exact ⟨rfl, rfl⟩
  · rintro rfl
    exact ⟨rfl, rfl⟩
  · rintro (rfl | rfl | rfl) <;> exact ⟨rfl, rfl⟩
  · rintro rfl
    exact ⟨rfl, rfl⟩
  · intro hnot
    simp only [List.mem_cons, List.not_mem_nil, or_false] at hnot
    push_neg at hnot
    obtain ⟨n1, n2, n3, n4, n5, n6, n7, n8⟩ := hnot
    simp [createHttpError, n1, n2, n3, n4, n5, n6, n7, n8]

/-- C4 witness: the 401 scenario of the spec. -/
theorem http_status_classification_witness :
    ((401 : Nat) < 200 ∨ 300 ≤ 401) ∧
    (executeQuery resolvedConfig (statusOracle 401 "Unauthorized") plainNet []).result
      = Except.error (createHttpError 401 "Unauthorized") ∧
    (createHttpError 401 "Unauthorized").code = ErrorCode.AUTHENTICATION_ERROR ∧
    (createHttpError 401 "Unauthorized").retryable = false := by
  have h := http_status_classification 401 "Unauthorized" (Or.inr (by norm_num))
  exact ⟨Or.inr (by norm_num), h.1, (h.2.1 (Or.inl rfl)).1, (h.2.1 (Or.inl rfl)).2⟩

/-- C5 counterexample: when every response keeps redirecting, the error thrown
after the 5-hop cap has kind UNKNOWN_ERROR, not CONNECTION_ERROR as the claim
states. -/
theorem redirect_cap_not_connection_error :
    (executeQuery resolvedConfig (constOracle (redirectResponse : RawRequestOutcome Nat))
        plainNet []).result
      = Except.error ⟨ErrorCode.UNKNOWN_ERROR, "HTTP 302: Found", false⟩ ∧
    ErrorCode.UNKNOWN_ERROR ≠ ErrorCode.CONNECTION_ERROR := by
  exact ⟨rfl, by decide⟩

/-- C5 (amended): a redirect chain of exactly 5 followed hops reaching a 2xx
response succeeds, and a response that still demands a 6th hop makes
executeQuery throw the HTTP-status-table error for the redirect status --
kind Unknown, non-retryable -- rather than a Connection-kind error. -/
theorem redirect_hop_cap (x : Nat) :
    (executeQuery resolvedConfig (fiveHopOracle x) plainNet []).result = Except.ok x ∧
    (executeQuery resolvedConfig (constOracle (redirectResponse : RawRequestOutcome Nat))
        plainNet []).result
      = Except.error (createHttpError 302 "Found") ∧
    (createHttpError 302 "Found").code = ErrorCode.UNKNOWN_ERROR ∧
    (createHttpError 302 "Found").retryable = false := by
  exact ⟨rfl, rfl, by decide, by decide⟩

/-- C6: evaluation at the failing input.  A config without a pre-resolved URL
but with custom discovery ports 8080/8443 makes executeQuery run discovery,
and that discovery probes the default port 80, not the configured ports --
executeQuery passes only the numeric timeout to discoverSslMode.  For
contrast, discoverSslMode itself honors the ports when they are passed in its
options object. -/
theorem discovery_ignores_custom_ports :
    customPortConfig.resolvedUrl = none ∧
    customPortConfig.httpPort = some 8080 ∧
    customPortConfig.httpsPort = some 8443 ∧
    ExecOutcome.discoveryProbes
        (executeQuery customPortConfig (constOracle (okResponse (0 : Nat))) plainNet [])
      = [ProbeEvent.plain 80] ∧
    (discoverSslMode "192.168.1.100"
        (DiscoveryOptionsArg.opts ⟨some 8080, some 8443, some 5000⟩) [] plainNet).probes
      = [ProbeEvent.plain 8080] ∧
    ProbeEvent.plain 80 ≠ ProbeEvent.plain 8080 := by
  decide

/-- C7 counterexample: a protocol-level error with message "timeout" and no
machine-readable code is classified as TIMEOUT_ERROR, a kind outside the
categories the claim allows for the message fallback (Authentication,
NotFound, ServerFault, Validation) and different from the claimed
OperationFailed default. -/
theorem graphql_timeout_message_category :
    mapGraphQLErrorCode ⟨"timeout", none⟩ = ErrorCode.TIMEOUT_ERROR ∧
    (executeQuery resolvedConfig timeoutMsgOracle plainNet []).result
      = Except.error ⟨ErrorCode.TIMEOUT_ERROR, "timeout", false⟩ ∧
    (ErrorCode.TIMEOUT_ERROR ≠ ErrorCode.AUTHENTICATION_ERROR ∧
     ErrorCode.TIMEOUT_ERROR ≠ ErrorCode.RESOURCE_NOT_FOUND ∧
     ErrorCode.TIMEOUT_ERROR ≠ ErrorCode.SERVER_ERROR ∧
     ErrorCode.TIMEOUT_ERROR ≠ ErrorCode.VALIDATION_ERROR ∧
     ErrorCode.TIMEOUT_ERROR ≠ ErrorCode.OPERATION_FAILED) := by
  exact ⟨rfl, rfl, by decide⟩

/-- C7 (amended): the first protocol-level error is classified by its
machine-readable code (UNAUTHENTICATED/FORBIDDEN Authentication, NOT_FOUND
NotFound, INTERNAL_SERVER_ERROR ServerFault, BAD_USER_INPUT Validation); with
no code the lowercased message is pattern-matched, in order, for "not found"
(NotFound), "unauthorized"/"authentication" (Authentication) and "timeout"
(Timeout), defaulting to OperationFailed; and the error executeQuery throws
for a non-empty error list carries the classification of the first error and
is always non-retryable. -/
theorem graphql_error_classification (e : GraphQLErrorInfo) (rest : List GraphQLErrorInfo)
    (d : Option Nat) :
    (e.extCode = some "UNAUTHENTICATED" →
      mapGraphQLErrorCode e = ErrorCode.AUTHENTICATION_ERROR) ∧
    (e.extCode = some "FORBIDDEN" →
      mapGraphQLErrorCode e = ErrorCode.AUTHENTICATION_ERROR) ∧
    (e.extCode = some "NOT_FOUND" →
      mapGraphQLErrorCode e = ErrorCode.RESOURCE_NOT_FOUND) ∧
    (e.extCode = some "INTERNAL_SERVER_ERROR" →
      mapGraphQLErrorCode e = ErrorCode.SERVER_ERROR) ∧
    (e.extCode = some "BAD_USER_INPUT" →
      mapGraphQLErrorCode e = ErrorCode.VALIDATION_ERROR) ∧
    (e.extCode = none → strContains (strLower e.message) "not found" = true →
      mapGraphQLErrorCode e = ErrorCode.RESOURCE_NOT_FOUND) ∧
    (e.extCode = none → strContains (strLower e.message) "not found" = false →
      (strContains (strLower e.message) "unauthorized" ||
        strContains (strLower e.message) "authentication") = true →
      mapGraphQLErrorCode e = ErrorCode.AUTHENTICATION_ERROR) ∧
    (e.extCode = none → strContains (strLower e.message) "not found" = false →
      (strContains (strLower e.message) "unauthorized" ||
        strContains (strLower e.message) "authentication") = false →
      strContains (strLower e.message) "timeout" = true →
      mapGraphQLErrorCode e = ErrorCode.TIMEOUT_ERROR) ∧
    (e.extCode = none → strContains (strLower e.message) "not found" = false →
      (strContains (strLower e.message) "unauthorized" ||
        strContains (strLower e.message) "authentication") = false →
      strContains (strLower e.message) "timeout" = false →
      mapGraphQLErrorCode e = ErrorCode.OPERATION_FAILED) ∧
    ((executeQuery resolvedConfig (gqlErrorOracle e rest d) plainNet []).result
      = Except.error ⟨mapGraphQLErrorCode e, e.message, false⟩) := by
  obtain ⟨m, c⟩ := e
  refine ⟨?_, ?_, ?_, ?_, ?_, ?_, ?_, ?_, ?_, rfl⟩
  · rintro h
    simp only [GraphQLErrorInfo.extCode] at h
    subst h
    rfl
  · rintro h
    simp only [GraphQLErrorInfo.extCode] at h
    subst h
    rfl
  · rintro h
    simp only [GraphQLErrorInfo.extCode] at h
    subst h
    rfl
  · rintro h
    simp only [GraphQLErrorInfo.extCode] at h
    subst h
    rfl
  · rintro h
    simp only [GraphQLErrorInfo.extCode] at h
    subst h
    rfl
  · rintro h h1
    simp only [GraphQLErrorInfo.extCode] at h
    subst h
    simp [mapGraphQLErrorCode, h1]
  · rintro h h1 h2
    simp only [GraphQLErrorInfo.extCode] at h
    subst h
    simp [mapGraphQLErrorCode, h1, h2]
  · rintro h h1 h2 h3
    simp only [GraphQLErrorInfo.extCode] at h
    subst h
    simp [mapGraphQLErrorCode, h1, h2, h3]
  · rintro h h1 h2 h3
    simp only [GraphQLErrorInfo.extCode] at h
    subst h
    simp [mapGraphQLErrorCode, h1, h2, h3]

/-- C7 witness: a FORBIDDEN-coded error classified and thrown by executeQuery. -/
theorem graphql_error_classification_witness :
    (⟨"Forbidden resource", some "FORBIDDEN"⟩ : GraphQLErrorInfo).extCode = some "FORBIDDEN" ∧
    mapGraphQLErrorCode ⟨"Forbidden resource", some "FORBIDDEN"⟩
      = ErrorCode.AUTHENTICATION_ERROR ∧
    (executeQuery resolvedConfig
        (gqlErrorOracle ⟨"Forbidden resource", some "FORBIDDEN"⟩ [] (some 0)) plainNet []).result
      = Except.error ⟨ErrorCode.AUTHENTICATION_ERROR, "Forbidden resource", false⟩ := by
  have h := graphql_error_classification ⟨"Forbidden resource", some "FORBIDDEN"⟩ [] (some 0)
  have hcode := h.2.1 rfl
  have hexec := h.2.2.2.2.2.2.2.2.2
  rw [hcode] at hexec
  exact ⟨rfl, hcode, hexec⟩

/-- C8: every failure of executeQuery surfaces as exactly one classified
UnraidApiError (the result is always either a payload or a single classified
error), and an uncaught `Error` reaching the catch block is classified by its
message: "timed out" gives Timeout retryable, "ECONNREFUSED" gives Connection
retryable with a message naming the configured host, "ENOTFOUND"/"EAI_AGAIN"
gives Connection retryable with an unresolved-hostname message, and anything
else gives Connection retryable. -/
theorem uncaught_error_classification (msg : String) :
    (∀ (α : Type) (oracle : RequestOracle α) (net : ProbeOracle) (cache : DiscoveryCache)
        (config : UnraidClientConfig),
      (∃ v, (executeQuery config oracle net cache).result = Except.ok v) ∨
      (∃ e2, (executeQuery config oracle net cache).result = Except.error e2)) ∧
    (strContains msg "timed out" = true →
      (executeQuery resolvedConfig (netErrorOracle msg) plainNet []).result
        = Except.error ⟨ErrorCode.TIMEOUT_ERROR, msg, true⟩) ∧
    (strContains msg "timed out" = false → strContains msg "ECONNREFUSED" = true →
      (executeQuery resolvedConfig (netErrorOracle msg) plainNet []).result
        = Except.error ⟨ErrorCode.CONNECTION_ERROR,
            "Connection refused - is the server running at "
              ++ resolvedConfig.host ++ "?", true⟩ ∧
      strContains ("Connection refused - is the server running at "
        ++ resolvedConfig.host ++ "?") resolvedConfig.host = true) ∧
    (strContains msg "timed out" = false → strContains msg "ECONNREFUSED" = false →
      (strContains msg "ENOTFOUND" || strContains msg "EAI_AGAIN") = true →
      (executeQuery resolvedConfig (netErrorOracle msg) plainNet []).result
        = Except.error ⟨ErrorCode.CONNECTION_ERROR,
            "Could not resolve hostname: " ++ resolvedConfig.host, true⟩) ∧
    (strContains msg "timed out" = false → strContains msg "ECONNREFUSED" = false →
      (strContains msg "ENOTFOUND" || strContains msg "EAI_AGAIN") = false →
      (executeQuery resolvedConfig (netErrorOracle msg) plainNet []).result
        = Except.error ⟨ErrorCode.CONNECTION_ERROR, msg, true⟩) := by
  have key : (executeQuery resolvedConfig (netErrorOracle msg) plainNet []).result
      = Except.error (classifyJsError resolvedConfig.host msg) := rfl
  refine ⟨?_, ?_, ?_, ?_, ?_⟩
  · intro α oracle net cache config
    cases h : (executeQuery config oracle net cache).result with
    | ok v => exact Or.inl ⟨v, rfl⟩
    | error e2 => exact Or.inr ⟨e2, rfl⟩
  · intro h1
    rw [key]
    simp [classifyJsError, h1]
  · intro h1 h2
    rw [key]
    refine ⟨?_, by decide⟩
    simp [classifyJsError, h1, h2]
  · intro h1 h2 h3
    rw [key]
    simp [classifyJsError, h1, h2, h3]
  · intro h1 h2 h3
    rw [key]
    simp [classifyJsError, h1, h2, h3]

/-- C8 witness: a connection-refused socket error classified with the
host-specific hint. -/
theorem uncaught_error_classification_witness :
    strContains "connect ECONNREFUSED 192.168.1.100:443" "timed out" = false ∧
    strContains "connect ECONNREFUSED 192.168.1.100:443" "ECONNREFUSED" = true ∧
    (executeQuery resolvedConfig (netErrorOracle "connect ECONNREFUSED 192.168.1.100:443")
        plainNet []).result
      = Except.error ⟨ErrorCode.CONNECTION_ERROR,
          "Connection refused - is the server running at "
            ++ resolvedConfig.host ++ "?", true⟩ := by
  have h := uncaught_error_classification "connect ECONNREFUSED 192.168.1.100:443"
  exact ⟨by decide, by decide, (h.2.2.1 (by decide) (by decide)).1⟩

end Unraid
